import Mathlib

/-!
Shallow embedding of `src/hir.rs` from the `rustc-tools` repository:
the front-end harness `with_tyctxt` together with its helpers
`make_input`, `new_handler` and `create_config`.

External collaborators (the host rustc pipeline: getopts parsing,
`parse_color`, `CodegenOptions::build`, `parse_crate_types_from_list`,
`queries.expansion()`, `queries.global_ctxt()`, stdin, ...) are not part of
the source of the repository; their observable results are supplied as inputs
(`HostEnv`, `HostPipeline`).  The control flow, diagnostics and data
construction of the four functions of `src/hir.rs` are translated directly.
-/

namespace RustcTools

/-- Model of `rustc_span::FileName`.  `FileName::anon_source_code(&src)` derives
an anonymous name from the source text; we keep the dependency on the text. -/
inductive FileName
| anon (src : String)
| custom (t : String)
deriving DecidableEq

/-- Model of `rustc_session::config::Input`: `Input::File(path)` or
`Input::Str { name, input }` (from stdin). -/
inductive Input
| File (path : String)
| Str (name : FileName) (input : String)
deriving DecidableEq

/-- Model of `rustc_errors::ColorConfig` (external enum, exact variants
irrelevant to the harness). -/
inductive ColorConfig
| auto
| always
| never
deriving DecidableEq

/-- The data `HumanReadableErrorType::unzip` produces: `(short, color_config)`.
We represent the human-readable kind directly by that pair. -/
structure HumanKind where
  short : Bool
  color : ColorConfig
deriving DecidableEq

/-- Token for the `json_rendered : HumanReadableErrorType` payload of
`ErrorOutputType::Json` (opaque to the harness). -/
structure JsonRenderKind where
  tok : Nat
deriving DecidableEq

/-- Model of `rustc_session::config::ErrorOutputType`. -/
inductive ErrorOutputType
| humanReadable (kind : HumanKind)
| json (pretty : Bool) (json_rendered : JsonRenderKind)
deriving DecidableEq

/-- Model of `rustc_span::source_map::FilePathMapping`. -/
structure FilePathMapping where
  mapping : List (String × String)
deriving DecidableEq

/-- `FilePathMapping::empty()`. -/
def FilePathMapping.empty : FilePathMapping := ⟨[]⟩

/-- Model of `rustc_span::source_map::SourceMap`. -/
structure SourceMap where
  file_path_mapping : FilePathMapping
deriving DecidableEq

/-- `SourceMap::new(fpm)`. -/
def SourceMap.new (fpm : FilePathMapping) : SourceMap := ⟨fpm⟩

/-- Model of a fluent localization bundle, recording how it was built. -/
structure FluentBundle where
  resources : List String
  with_directionality : Bool
deriving DecidableEq

/-- Token for `rustc_errors::DEFAULT_LOCALE_RESOURCES`. -/
def DEFAULT_LOCALE_RESOURCES : List String := ["default_locale_resources"]

/-- `rustc_errors::fallback_fluent_bundle(resources, with_directionality)`. -/
def fallback_fluent_bundle (resources : List String) (with_directionality : Bool) :
    FluentBundle :=
  ⟨resources, with_directionality⟩

/-- The fields of `rustc_session::config::UnstableOptions` the harness reads. -/
structure UnstableOptions where
  teach : Bool
  track_diagnostics : Bool
  ui_testing : Bool
deriving DecidableEq

/-- Result of `unstable_opts.diagnostic_handler_flags(can_emit_warnings)`:
an external construction, recorded with its inputs. -/
structure HandlerFlags where
  opts : UnstableOptions
  can_emit_warnings : Bool
deriving DecidableEq

/-- `UnstableOptions::diagnostic_handler_flags` (external method). -/
def UnstableOptions.diagnostic_handler_flags (uo : UnstableOptions) (b : Bool) :
    HandlerFlags :=
  ⟨uo, b⟩

/-- Model of `EmitterWriter::stderr(...)` followed by `.ui_testing(flag)`:
the arguments of the human-readable emitter, in source order
(`backtrace_flag` is the literal `false` passed for macro-backtrace printing). -/
structure EmitterWriter where
  color_config : ColorConfig
  source_map : Option SourceMap
  bundle : Option FluentBundle
  fallback_bundle : FluentBundle
  short_message : Bool
  teach : Bool
  diagnostic_width : Option Nat
  backtrace_flag : Bool
  track_diagnostics : Bool
  ui_testing : Bool
deriving DecidableEq

/-- Model of `JsonEmitter::stderr(...)` followed by `.ui_testing(flag)`. -/
structure JsonEmitter where
  registry : Option Nat
  source_map : SourceMap
  bundle : Option FluentBundle
  fallback_bundle : FluentBundle
  pretty : Bool
  json_rendered : JsonRenderKind
  diagnostic_width : Option Nat
  backtrace_flag : Bool
  track_diagnostics : Bool
  ui_testing : Bool
deriving DecidableEq

/-- The boxed `dyn Emitter` built by `new_handler`. -/
inductive Emitter
| writer (e : EmitterWriter)
| json (e : JsonEmitter)
deriving DecidableEq

/-- The fallback localization bundle an emitter was built with. -/
def Emitter.bundle_of : Emitter → FluentBundle
| .writer e => e.fallback_bundle
| .json e => e.fallback_bundle

/-- The UI-testing normalization toggle an emitter was built with. -/
def Emitter.ui_testing_of : Emitter → Bool
| .writer e => e.ui_testing
| .json e => e.ui_testing

/-- Model of `rustc_errors::Handler` as built by
`Handler::with_emitter_and_flags(emitter, flags)`. -/
structure Handler where
  emitter : Emitter
  flags : HandlerFlags
deriving DecidableEq

/-- Embedding of `new_handler` (src/hir.rs lines 128-181). -/
def new_handler (error_format : ErrorOutputType) (source_map : Option SourceMap)
    (diagnostic_width : Option Nat) (unstable_opts : UnstableOptions) : Handler :=
  let fallback_bundle := fallback_fluent_bundle DEFAULT_LOCALE_RESOURCES false
  let emitter : Emitter :=
    match error_format with
    | .humanReadable kind =>
        .writer
          { color_config := kind.color
            source_map := source_map
            bundle := none
            fallback_bundle := fallback_bundle
            short_message := kind.short
            teach := unstable_opts.teach
            diagnostic_width := diagnostic_width
            backtrace_flag := false
            track_diagnostics := unstable_opts.track_diagnostics
            ui_testing := unstable_opts.ui_testing }
    | .json pretty json_rendered =>
        let sm := source_map.getD (SourceMap.new FilePathMapping.empty)
        .json
          { registry := none
            source_map := sm
            bundle := none
            fallback_bundle := fallback_bundle
            pretty := pretty
            json_rendered := json_rendered
            diagnostic_width := diagnostic_width
            backtrace_flag := false
            track_diagnostics := unstable_opts.track_diagnostics
            ui_testing := unstable_opts.ui_testing }
  { emitter := emitter
    flags := unstable_opts.diagnostic_handler_flags true }

/-- One emitted diagnostic: `early_error_no_abort(error_format, msg)` or
`diag.struct_err(msg).emit()`. -/
inductive Diag
| early (format : ErrorOutputType) (msg : String)
| handler (msg : String)
deriving DecidableEq

/-- Embedding of `make_input` (src/hir.rs lines 94-126).  The stdin stream is
an input: `some src` when `read_to_string` succeeds with contents `src`, `none`
when it fails (e.g. the stream is not valid UTF-8).  The returned list is the
trace of emitted diagnostics.  Note the file-path arm builds the `Input`
purely from the operand string: no filesystem access occurs. -/
def make_input (error_format : ErrorOutputType) (stdin : Option String)
    (free_matches : List String) : Except Unit (Option Input) × List Diag :=
  match free_matches with
  | [ifile] =>
      if ifile = "-" then
        match stdin with
        | none =>
            (Except.error (),
             [Diag.early error_format
                "couldn\x27t read from stdin, as it did not contain valid UTF-8"])
        | some src =>
            (Except.ok (some (Input.Str (FileName.anon src) src)), [])
      else
        (Except.ok (some (Input.File ifile)), [])
  | [] =>
      (Except.ok none, [Diag.handler ("missing file operand")])
  | _ =>
      (Except.ok none, [Diag.handler ("too many file operands")])

/-- Token for `rustc_session::config::CrateType` (external enum). -/
structure CrateType where
  tok : Nat
deriving DecidableEq

/-- Result of `SearchPath::from_cli_opt(s, error_format)` (external),
recorded with its inputs. -/
structure SearchPath where
  raw : String
  format : ErrorOutputType
deriving DecidableEq

/-- `SearchPath::from_cli_opt`. -/
def SearchPath.from_cli_opt (s : String) (ef : ErrorOutputType) : SearchPath :=
  ⟨s, ef⟩

/-- Token for the parsed `--` dependency bindings map produced by
`parse_externs` (external). -/
structure DepBindings where
  tok : Nat
deriving DecidableEq

/-- Token for the parsed lint options from `get_cmd_lint_options`. -/
structure LintOpts where
  entries : List (String × Nat)
deriving DecidableEq

/-- Token for a lint cap level. -/
structure LintLevel where
  tok : Nat
deriving DecidableEq

/-- Token for `CodegenOptions::build` output. -/
structure CodegenOptions where
  tok : Nat
deriving DecidableEq

/-- Token for `parse_target_triple` output. -/
structure TargetTriple where
  triple : String
deriving DecidableEq

/-- Token for `parse_crate_edition` output. -/
structure Edition where
  year : Nat
deriving DecidableEq

/-- `UnstableFeatures::from_environment(crate_name)`: external, recorded with
its input. -/
structure UnstableFeatures where
  from_crate_name : Option String
deriving DecidableEq

/-- `UnstableFeatures::from_environment`. -/
def UnstableFeatures.from_environment (n : Option String) : UnstableFeatures :=
  ⟨n⟩

/-- `interface::parse_cfgspecs` output (external), recorded with its input. -/
structure CfgSpecs where
  raw : List String
deriving DecidableEq

/-- `interface::parse_cfgspecs`. -/
def parse_cfgspecs (l : List String) : CfgSpecs := ⟨l⟩

/-- `interface::parse_check_cfg` output (external), recorded with its input. -/
structure CheckCfgSpecs where
  raw : List String
deriving DecidableEq

/-- `interface::parse_check_cfg`. -/
def parse_check_cfg (l : List String) : CheckCfgSpecs := ⟨l⟩

/-- Token for `rustc_driver::diagnostics_registry()`. -/
structure Registry where
  tok : Unit
deriving DecidableEq

/-- `rustc_driver::diagnostics_registry`. -/
def diagnostics_registry : Registry := ⟨()⟩

/-- The `lint_mod` query provider: the host implementation or the no-op
closure `|_, _| {}` installed by the override table. -/
inductive LintModQuery
| host (tok : Nat)
| noop
deriving DecidableEq

/-- The `typeck_item_bodies` query provider: host implementation or the no-op
closure installed by the override table. -/
inductive TypeckItemBodiesQuery
| host (tok : Nat)
| noop
deriving DecidableEq

/-- The `used_trait_imports` query provider: host implementation or the
constant-result closure installed by the override table (`LocalDefId`s
modelled as `Nat`). -/
inductive UsedTraitImportsQuery
| host (tok : Nat)
| const (result : List Nat)
deriving DecidableEq

/-- The provider table handed to `override_queries`: the three queries the
harness touches, plus an abstract token standing for every other query
provider in the table. -/
structure Providers where
  lint_mod : LintModQuery
  typeck_item_bodies : TypeckItemBodiesQuery
  used_trait_imports : UsedTraitImportsQuery
  other_queries : Nat
deriving DecidableEq

/-- The `static EMPTY_SET: LazyLock<UnordSet<LocalDefId>>` constant: an empty
set. -/
def EMPTY_SET : List Nat := []

/-- Embedding of the `override_queries` closure of `create_config`
(src/hir.rs lines 260-270): replace the three providers, touch nothing
else. -/
def override_queries (providers : Providers) : Providers :=
  { providers with
      lint_mod := LintModQuery.noop
      typeck_item_bodies := TypeckItemBodiesQuery.noop
      used_trait_imports := UsedTraitImportsQuery.const EMPTY_SET }

/-- The fields of `rustc_session::config::Options` that `create_config` sets
explicitly (the remaining fields come from `Options::default()` and are not
modelled). -/
structure Options where
  maybe_sysroot : Option String
  search_paths : List SearchPath
  crate_types : List CrateType
  lint_opts : LintOpts
  lint_cap : Option LintLevel
  cg : CodegenOptions
  deps : DepBindings
  target_triple : TargetTriple
  unstable_features : UnstableFeatures
  actually_rustdoc : Bool
  unstable_opts : UnstableOptions
  error_format : ErrorOutputType
  diagnostic_width : Option Nat
  edition : Edition
  describe_lints : Bool
  crate_name : Option String
  test : Bool
deriving DecidableEq

/-- Model of `rustc_interface::interface::Config` as assembled by
`create_config` (src/hir.rs lines 249-273). -/
structure Config where
  opts : Options
  crate_cfg : CfgSpecs
  crate_check_cfg : CheckCfgSpecs
  input : Input
  output_file : Option String
  output_dir : Option String
  file_loader : Option Unit
  lint_caps : List (Nat × Nat)
  parse_sess_created : Option Unit
  register_lints : Option Unit
  override_queries : Option (Providers → Providers)
  make_codegen_backend : Option Unit
  registry : Registry

/-- The flag-derived values `getopts::Matches` yields to `create_config`:
`margs.free` and the `opt_strs`/`opt_str`/`opt_get` lookups it performs. -/
structure Matches where
  free : List String
  l_paths : List String
  cfg : List String
  check_cfg : List String
  crate_name : Option String
  sysroot : Option String
  diagnostic_width : Option Nat
deriving DecidableEq

instance {ε α : Type} [DecidableEq ε] [DecidableEq α] : DecidableEq (Except ε α) :=
  fun a b =>
    match a, b with
    | Except.ok x, Except.ok y =>
        if h : x = y then isTrue (congrArg Except.ok h)
        else isFalse (fun hh => h (Except.ok.inj hh))
    | Except.error x, Except.error y =>
        if h : x = y then isTrue (congrArg Except.error h)
        else isFalse (fun hh => h (Except.error.inj hh))
    | Except.ok _, Except.error _ => isFalse (fun hh => Except.noConfusion hh)
    | Except.error _, Except.ok _ => isFalse (fun hh => Except.noConfusion hh)

/-- Observable results of the external host functions `create_config` calls
(they live in rustc, not in this repository): parsed color/json/format
settings, built codegen and unstable options, the stdin stream, the result of
`parse_crate_types_from_list`, the `get_cmd_lint_options` triple, and the
outputs of `parse_externs`, `parse_target_triple`, `parse_crate_edition`. -/
structure HostEnv where
  color : ColorConfig
  json_rendered : JsonRenderKind
  error_format : ErrorOutputType
  codegen_options : CodegenOptions
  unstable_opts : UnstableOptions
  lint_opts : LintOpts
  describe_lints : Bool
  lint_cap : Option LintLevel
  stdin : Option String
  deps : DepBindings
  crate_types_result : Except String (List CrateType)
  target_triple : TargetTriple
  edition : Edition
deriving DecidableEq

/-- Embedding of `create_config` (src/hir.rs lines 183-273).  Returns the
assembled config (or `none` after a fatal sub-step) together with the trace of
emitted diagnostics, in emission order. -/
def create_config (env : HostEnv) (margs : Matches) :
    Option Config × List Diag :=
  let error_format := env.error_format
  let diagnostic_width := margs.diagnostic_width
  let codegen_options := env.codegen_options
  let unstable_opts := env.unstable_opts
  let _diag := new_handler error_format none diagnostic_width unstable_opts
  let lint_opts := env.lint_opts
  let describe_lints := env.describe_lints
  let lint_cap := env.lint_cap
  match make_input error_format env.stdin margs.free with
  | (Except.ok none, log) => (none, log)
  | (Except.error _, log) =>
      -- `diag.struct_err(&format!("Failed to parse input: ..."))`; the
      -- `ErrorGuaranteed` debug payload is a fixed text.
      (none, log ++ [Diag.handler ("Failed to parse input: ErrorGuaranteed(())")])
  | (Except.ok (some input), log) =>
      let libs := margs.l_paths.map (fun s => SearchPath.from_cli_opt s error_format)
      let deps := env.deps
      let cfgs := margs.cfg
      let check_cfgs := margs.check_cfg
      match env.crate_types_result with
      | Except.error e =>
          (none, log ++ [Diag.handler ("unknown crate type: " ++ e)])
      | Except.ok crate_types =>
          let crate_name := margs.crate_name
          let sessopts : Options :=
            { maybe_sysroot := margs.sysroot
              search_paths := libs
              crate_types := crate_types
              lint_opts := lint_opts
              lint_cap := lint_cap
              cg := codegen_options
              deps := deps
              target_triple := env.target_triple
              unstable_features := UnstableFeatures.from_environment crate_name
              actually_rustdoc := false
              unstable_opts := unstable_opts
              error_format := error_format
              diagnostic_width := diagnostic_width
              edition := env.edition
              describe_lints := describe_lints
              crate_name := crate_name
              test := false }
          (some
            { opts := sessopts
              crate_cfg := parse_cfgspecs cfgs
              crate_check_cfg := parse_check_cfg check_cfgs
              input := input
              output_file := none
              output_dir := none
              file_loader := none
              lint_caps := []
              parse_sess_created := none
              register_lints := none
              override_queries := some override_queries
              make_codegen_backend := none
              registry := diagnostics_registry }, log)

/-- Token for the `TyCtxt` the global context hands to the callback. -/
structure TyCtxt where
  tok : Nat
deriving DecidableEq

/-- Observable behaviour of the host pipeline stages `with_tyctxt` drives:
whether `options.parse` failed (with its message), whether
`queries.expansion()` returned `Ok`, whether
`sess.diagnostic().has_errors_or_lint_errors()` is set after expansion,
whether `queries.global_ctxt()` returned `Ok`, and the `TyCtxt` the global
context exposes. -/
structure HostPipeline where
  arg_parse_error : Option String
  expansion_ok : Bool
  has_errors_or_lint_errors : Bool
  global_ctxt_ok : Bool
  tcx : TyCtxt
deriving DecidableEq

/-- How one invocation of the harness ends: `Ok(value)` returned, the
configuration-failure `Err(String)` returned, or a fatal process-level abort
(`early_error`, `sess.fatal`, `abort_on_err`). -/
inductive Outcome (T : Type)
| ok (value : T)
| err (msg : String)
| fatal (msg : String)
deriving DecidableEq

/-- Full observable trace of one `with_tyctxt` invocation: the outcome, how
many times the callback ran, whether the expansion and global-context queries
were invoked, and the configuration-time diagnostics. -/
structure RunTrace (T : Type) where
  outcome : Outcome T
  callback_calls : Nat
  expansion_ran : Bool
  global_ctxt_ran : Bool
  diags : List Diag
deriving DecidableEq

/-- Embedding of `with_tyctxt` (src/hir.rs lines 41-92), staged exactly as the
source: `options.parse` failure aborts via `early_error`; a failed
`create_config` returns `Err("Failed to create_config")`; inside
`run_compiler`, `describe_lints` aborts via `early_error`; `abort_on_err`
around `queries.expansion()` aborts when the expansion query fails (the
diagnostics were already emitted; the abort carries no harness message, we tag
it with a marker); a set `has_errors_or_lint_errors` aborts via
`sess.fatal("Compilation failed, aborting")`; `abort_on_err` around
`queries.global_ctxt()` likewise; otherwise the callback runs once inside the
global context and `Ok(callback(tcx))` is returned. -/
def with_tyctxt {T : Type} (host : HostPipeline) (env : HostEnv)
    (margs : Matches) (callback : TyCtxt → T) : RunTrace T :=
  match host.arg_parse_error with
  | some e =>
      { outcome := Outcome.fatal e
        callback_calls := 0
        expansion_ran := false
        global_ctxt_ran := false
        diags := [] }
  | none =>
      match create_config env margs with
      | (none, log) =>
          { outcome := Outcome.err ("Failed to create_config")
            callback_calls := 0
            expansion_ran := false
            global_ctxt_ran := false
            diags := log }
      | (some config, log) =>
          if config.opts.describe_lints then
            { outcome := Outcome.fatal ("`describe-lints` option is not allowed")
              callback_calls := 0
              expansion_ran := false
              global_ctxt_ran := false
              diags := log }
          else if !host.expansion_ok then
            { outcome := Outcome.fatal ("abort_on_err: expansion")
              callback_calls := 0
              expansion_ran := true
              global_ctxt_ran := false
              diags := log }
          else if host.has_errors_or_lint_errors then
            { outcome := Outcome.fatal ("Compilation failed, aborting")
              callback_calls := 0
              expansion_ran := true
              global_ctxt_ran := false
              diags := log }
          else if !host.global_ctxt_ok then
            { outcome := Outcome.fatal ("abort_on_err: global_ctxt")
              callback_calls := 0
              expansion_ran := true
              global_ctxt_ran := true
              diags := log }
          else
            { outcome := Outcome.ok (callback host.tcx)
              callback_calls := 1
              expansion_ran := true
              global_ctxt_ran := true
              diags := log }

/-! Concrete inputs used to instantiate the theorems below. -/

/-- A default human-readable error format. -/
def sampleFormat : ErrorOutputType :=
  ErrorOutputType.humanReadable ⟨false, ColorConfig.auto⟩

/-- All-false unstable options. -/
def sampleUnstable : UnstableOptions := ⟨false, false, false⟩

/-- A host environment for a plain, well-formed invocation. -/
def sampleEnv : HostEnv :=
  { color := ColorConfig.auto
    json_rendered := ⟨0⟩
    error_format := sampleFormat
    codegen_options := ⟨0⟩
    unstable_opts := sampleUnstable
    lint_opts := ⟨[]⟩
    describe_lints := false
    lint_cap := none
    stdin := none
    deps := ⟨0⟩
    crate_types_result := Except.ok []
    target_triple := ⟨"x86_64-unknown-linux-gnu"⟩
    edition := ⟨2021⟩ }

/-- Flag matches for an invocation with the single operand `main.rs`. -/
def sampleMatches : Matches :=
  { free := ["main.rs"]
    l_paths := []
    cfg := []
    check_cfg := []
    crate_name := none
    sysroot := none
    diagnostic_width := none }

/-- Flag matches with zero positional operands. -/
def mEmpty : Matches := { sampleMatches with free := [] }

/-- Flag matches with two positional operands. -/
def mMulti : Matches := { sampleMatches with free := ["a.rs", "b.rs"] }

/-- Flag matches whose sole operand is the stdin sentinel `-`. -/
def mDash : Matches := { sampleMatches with free := ["-"] }

/-- The options `create_config sampleEnv sampleMatches` assembles. -/
def sampleOpts : Options :=
  { maybe_sysroot := none
    search_paths := []
    crate_types := []
    lint_opts := ⟨[]⟩
    lint_cap := none
    cg := ⟨0⟩
    deps := ⟨0⟩
    target_triple := ⟨"x86_64-unknown-linux-gnu"⟩
    unstable_features := ⟨none⟩
    actually_rustdoc := false
    unstable_opts := sampleUnstable
    error_format := sampleFormat
    diagnostic_width := none
    edition := ⟨2021⟩
    describe_lints := false
    crate_name := none
    test := false }

/-- The config `create_config sampleEnv sampleMatches` assembles. -/
def sampleConfig : Config :=
  { opts := sampleOpts
    crate_cfg := ⟨[]⟩
    crate_check_cfg := ⟨[]⟩
    input := Input.File ("main.rs")
    output_file := none
    output_dir := none
    file_loader := none
    lint_caps := []
    parse_sess_created := none
    register_lints := none
    override_queries := some override_queries
    make_codegen_backend := none
    registry := diagnostics_registry }

/-- `sampleEnv` with `describe-lints` requested. -/
def dlEnv : HostEnv := { sampleEnv with describe_lints := true }

/-- The config assembled from `dlEnv`. -/
def dlConfig : Config :=
  { sampleConfig with opts := { sampleOpts with describe_lints := true } }

/-- `sampleEnv` with `describe-lints` requested and an unknown crate type:
configuration assembly fails even though `describe-lints` was requested. -/
def dlBadEnv : HostEnv :=
  { sampleEnv with
      describe_lints := true
      crate_types_result := Except.error ("bad") }

/-- A host pipeline where every stage succeeds. -/
def hostOk : HostPipeline :=
  { arg_parse_error := none
    expansion_ok := true
    has_errors_or_lint_errors := false
    global_ctxt_ok := true
    tcx := ⟨0⟩ }

/-- A host pipeline whose expansion stage leaves accumulated errors. -/
def hostErr : HostPipeline :=
  { hostOk with has_errors_or_lint_errors := true }

/-- A concrete callback returning a constant. -/
def zeroCallback : TyCtxt → Nat := fun _ => 0

/-- A concrete provider table with host implementations everywhere. -/
def sampleProviders : Providers :=
  { lint_mod := LintModQuery.host 3
    typeck_item_bodies := TypeckItemBodiesQuery.host 5
    used_trait_imports := UsedTraitImportsQuery.host 7
    other_queries := 11 }

/-! Helper lemmas shared by the claim theorems. -/

/-- Sanity: on the plain sample invocation the assembler yields exactly
`sampleConfig` with no diagnostics. -/
theorem create_config_sample_eq :
    create_config sampleEnv sampleMatches = (some sampleConfig, []) := rfl

/-- Sanity: with `describe-lints` requested the assembler yields `dlConfig`. -/
theorem create_config_dl_eq :
    create_config dlEnv sampleMatches = (some dlConfig, []) := rfl

/-- Whenever `create_config` succeeds, the assembled options carry the
lint-option-derived `describe_lints`, disable `test` and `actually_rustdoc`,
and the override table is attached. -/
theorem create_config_some_spec (env : HostEnv) (margs : Matches) (c : Config)
    (log : List Diag) (h : create_config env margs = (some c, log)) :
    c.opts.describe_lints = env.describe_lints ∧ c.opts.test = false ∧
    c.opts.actually_rustdoc = false ∧
    c.override_queries = some override_queries := by
  unfold create_config at h
  rcases hmi : make_input env.error_format env.stdin margs.free with ⟨mr, mlog⟩
  simp only [hmi] at h
  rcases mr with u | o
  · exact absurd h (by simp)
  · rcases o with _ | i
    · exact absurd h (by simp)
    · rcases hct : env.crate_types_result with e | cts
      · simp only [hct] at h
        exact absurd h (by simp)
      · simp only [hct] at h
        rw [Prod.mk.injEq, Option.some.injEq] at h
        obtain ⟨h1, _⟩ := h
        subst h1
        exact ⟨rfl, rfl, rfl, rfl⟩

/-- C3: `make_input`, given the non-flag operands: one non-dash operand maps
to `Ok(Some(Input::File(path)))` with no diagnostic (and the definition takes
no filesystem input, so the file is neither opened nor validated); zero
operands emit "missing file operand" and yield `Ok(None)`; two or more
operands emit "too many file operands" and yield `Ok(None)`. -/
theorem make_input_operand_cases (ef : ErrorOutputType) (stdin : Option String)
    (f : String) (a b : String) (rest : List String) :
    (f ≠ "-" → make_input ef stdin [f] = (Except.ok (some (Input.File f)), [])) ∧
    make_input ef stdin [] =
      (Except.ok none, [Diag.handler ("missing file operand")]) ∧
    make_input ef stdin (a :: b :: rest) =
      (Except.ok none, [Diag.handler ("too many file operands")]) := by
  refine ⟨fun hf => ?_, rfl, rfl⟩
  simp [make_input, hf]

/-- Witness for C3 at the concrete operand list `["main.rs"]`. -/
theorem make_input_operand_cases_witness :
    make_input sampleFormat none ["main.rs"] =
      (Except.ok (some (Input.File ("main.rs"))), []) :=
  (make_input_operand_cases sampleFormat none "main.rs" "a" "b" []).1 (by decide)

/-- C4: the override table closure attached by `create_config` replaces
exactly the three providers `lint_mod` (no-op), `typeck_item_bodies` (no-op)
and `used_trait_imports` (fixed empty set) and leaves every other provider
unchanged; every successfully assembled config carries exactly this closure,
whatever the flags and environment were. -/
theorem override_table_exactly_three (env : HostEnv) (margs : Matches)
    (c : Config) (log : List Diag) (p : Providers)
    (hcfg : create_config env margs = (some c, log)) :
    c.override_queries = some override_queries ∧
    (override_queries p).lint_mod = LintModQuery.noop ∧
    (override_queries p).typeck_item_bodies = TypeckItemBodiesQuery.noop ∧
    (override_queries p).used_trait_imports =
      UsedTraitImportsQuery.const EMPTY_SET ∧
    (override_queries p).other_queries = p.other_queries :=
  ⟨(create_config_some_spec env margs c log hcfg).2.2.2, rfl, rfl, rfl, rfl⟩

/-- Witness for C4 at the sample invocation and a host provider table. -/
theorem override_table_exactly_three_witness :
    sampleConfig.override_queries = some override_queries ∧
    (override_queries sampleProviders).lint_mod = LintModQuery.noop ∧
    (override_queries sampleProviders).typeck_item_bodies =
      TypeckItemBodiesQuery.noop ∧
    (override_queries sampleProviders).used_trait_imports =
      UsedTraitImportsQuery.const EMPTY_SET ∧
    (override_queries sampleProviders).other_queries =
      sampleProviders.other_queries :=
  override_table_exactly_three sampleEnv sampleMatches sampleConfig []
    sampleProviders rfl

/-- C9: `new_handler` in the JSON case with no source map supplied builds the
emitter around a freshly constructed empty source map instead of failing; and
in both the human-readable and JSON cases the emitter carries the same
fallback localization bundle and the `ui_testing` toggle taken from the
unstable options. -/
theorem new_handler_json_empty_sourcemap_shared (pretty : Bool)
    (jr : JsonRenderKind) (dw : Option Nat) (uo : UnstableOptions)
    (ef : ErrorOutputType) (sm : Option SourceMap) :
    (new_handler (ErrorOutputType.json pretty jr) none dw uo).emitter
      = Emitter.json
          { registry := none
            source_map := SourceMap.new FilePathMapping.empty
            bundle := none
            fallback_bundle := fallback_fluent_bundle DEFAULT_LOCALE_RESOURCES false
            pretty := pretty
            json_rendered := jr
            diagnostic_width := dw
            backtrace_flag := false
            track_diagnostics := uo.track_diagnostics
            ui_testing := uo.ui_testing } ∧
    ((new_handler ef sm dw uo).emitter).bundle_of
      = fallback_fluent_bundle DEFAULT_LOCALE_RESOURCES false ∧
    ((new_handler ef sm dw uo).emitter).ui_testing_of = uo.ui_testing := by
  refine ⟨rfl, ?_, ?_⟩ <;> cases ef <;> rfl

/-- C1: on a valid single-file input whose compilation accumulates zero
errors (flags parse, the config assembles, `describe-lints` is off, expansion
succeeds with no accumulated or lint-level errors, the global context
builds), the harness returns `Ok` of exactly the value of the callback and the
callback runs exactly once. -/
theorem with_tyctxt_success_callback_once {T : Type} (host : HostPipeline)
    (env : HostEnv) (margs : Matches) (callback : TyCtxt → T) (c : Config)
    (log : List Diag)
    (hparse : host.arg_parse_error = none)
    (hcfg : create_config env margs = (some c, log))
    (hdl : c.opts.describe_lints = false)
    (hexp : host.expansion_ok = true)
    (herr : host.has_errors_or_lint_errors = false)
    (hgcx : host.global_ctxt_ok = true) :
    (with_tyctxt host env margs callback).outcome
        = Outcome.ok (callback host.tcx) ∧
    (with_tyctxt host env margs callback).callback_calls = 1 := by
  unfold with_tyctxt
  rw [hparse, hcfg]
  simp [hdl, hexp, herr, hgcx]

/-- Witness for C1 at the sample invocation with a successful pipeline. -/
theorem with_tyctxt_success_callback_once_witness :
    (with_tyctxt hostOk sampleEnv sampleMatches zeroCallback).outcome
        = Outcome.ok (zeroCallback hostOk.tcx) ∧
    (with_tyctxt hostOk sampleEnv sampleMatches zeroCallback).callback_calls
        = 1 :=
  with_tyctxt_success_callback_once hostOk sampleEnv sampleMatches zeroCallback
    sampleConfig [] rfl create_config_sample_eq rfl rfl rfl rfl

/-- C2: when the expansion stage completes but leaves accumulated errors or
lint-level errors, the harness aborts with the single terminal report
"Compilation failed, aborting"; the global-context query is never run and the
callback is never invoked. -/
theorem expansion_errors_fatal_abort {T : Type} (host : HostPipeline)
    (env : HostEnv) (margs : Matches) (callback : TyCtxt → T) (c : Config)
    (log : List Diag)
    (hparse : host.arg_parse_error = none)
    (hcfg : create_config env margs = (some c, log))
    (hdl : c.opts.describe_lints = false)
    (hexp : host.expansion_ok = true)
    (herr : host.has_errors_or_lint_errors = true) :
    (with_tyctxt host env margs callback).outcome
        = Outcome.fatal ("Compilation failed, aborting") ∧
    (with_tyctxt host env margs callback).global_ctxt_ran = false ∧
    (with_tyctxt host env margs callback).callback_calls = 0 := by
  unfold with_tyctxt
  rw [hparse, hcfg]
  simp [hdl, hexp, herr]

/-- Witness for C2: the sample invocation on a pipeline that accumulated
errors during expansion. -/
theorem expansion_errors_fatal_abort_witness :
    (with_tyctxt hostErr sampleEnv sampleMatches zeroCallback).outcome
        = Outcome.fatal ("Compilation failed, aborting") ∧
    (with_tyctxt hostErr sampleEnv sampleMatches zeroCallback).global_ctxt_ran
        = false ∧
    (with_tyctxt hostErr sampleEnv sampleMatches zeroCallback).callback_calls
        = 0 :=
  expansion_errors_fatal_abort hostErr sampleEnv sampleMatches zeroCallback
    sampleConfig [] rfl create_config_sample_eq rfl rfl rfl

/-- C6 counterexample: an invocation with `describe-lints` requested but an
unknown crate type does not abort fatally at the preflight check — the
assembler fails first, so the harness returns the configuration `Err`
instead. -/
theorem describe_lints_not_always_preflight_cex :
    dlBadEnv.describe_lints = true ∧
    (with_tyctxt hostOk dlBadEnv sampleMatches zeroCallback).outcome
        = Outcome.err ("Failed to create_config") ∧
    (with_tyctxt hostOk dlBadEnv sampleMatches zeroCallback).outcome
        ≠ Outcome.fatal ("`describe-lints` option is not allowed") := by
  refine ⟨rfl, rfl, ?_⟩
  decide

/-- C6 amended: when `describe-lints` is requested and configuration assembly
succeeds, the driver aborts fatally at the preflight check before the
expansion or global-context stage runs, and the callback is never invoked
(when assembly fails instead, the invocation returns `Err` — still before any
pipeline stage, with no callback). -/
theorem describe_lints_preflight_amended {T : Type} (host : HostPipeline)
    (env : HostEnv) (margs : Matches) (callback : TyCtxt → T) (c : Config)
    (log : List Diag)
    (hparse : host.arg_parse_error = none)
    (hcfg : create_config env margs = (some c, log))
    (hdl : c.opts.describe_lints = true) :
    (with_tyctxt host env margs callback).outcome
        = Outcome.fatal ("`describe-lints` option is not allowed") ∧
    (with_tyctxt host env margs callback).expansion_ran = false ∧
    (with_tyctxt host env margs callback).global_ctxt_ran = false ∧
    (with_tyctxt host env margs callback).callback_calls = 0 := by
  unfold with_tyctxt
  rw [hparse, hcfg]
  simp [hdl]

/-- Witness for the amended C6: `describe-lints` requested, assembly
succeeds, preflight aborts. -/
theorem describe_lints_preflight_amended_witness :
    (with_tyctxt hostOk dlEnv sampleMatches zeroCallback).outcome
        = Outcome.fatal ("`describe-lints` option is not allowed") ∧
    (with_tyctxt hostOk dlEnv sampleMatches zeroCallback).expansion_ran
        = false ∧
    (with_tyctxt hostOk dlEnv sampleMatches zeroCallback).global_ctxt_ran
        = false ∧
    (with_tyctxt hostOk dlEnv sampleMatches zeroCallback).callback_calls
        = 0 :=
  describe_lints_preflight_amended hostOk dlEnv sampleMatches zeroCallback
    dlConfig [] rfl create_config_dl_eq rfl

/-- C7: with the dash sentinel as sole operand and an unreadable (non-UTF-8)
stdin stream, the Input Resolver emits the fatal UTF-8 diagnostic and returns
the `Err` variant carrying no input content; the assembler then fails, the
harness returns the configuration `Err`, the host pipeline is never started
and the callback never runs. -/
theorem stdin_invalid_utf8_fails_at_resolver {T : Type} (host : HostPipeline)
    (env : HostEnv) (margs : Matches) (callback : TyCtxt → T)
    (hfree : margs.free = ["-"]) (hstdin : env.stdin = none)
    (hparse : host.arg_parse_error = none) :
    make_input env.error_format env.stdin margs.free =
      (Except.error (),
        [Diag.early env.error_format
          ("couldn\x27t read from stdin, as it did not contain valid UTF-8")]) ∧
    (create_config env margs).1 = none ∧
    (with_tyctxt host env margs callback).outcome
        = Outcome.err ("Failed to create_config") ∧
    (with_tyctxt host env margs callback).expansion_ran = false ∧
    (with_tyctxt host env margs callback).callback_calls = 0 := by
  have hmi : make_input env.error_format env.stdin margs.free =
      (Except.error (),
        [Diag.early env.error_format
          ("couldn\x27t read from stdin, as it did not contain valid UTF-8")]) := by
    rw [hfree, hstdin]
    rfl
  have hcc : create_config env margs =
      (none,
        [Diag.early env.error_format
          ("couldn\x27t read from stdin, as it did not contain valid UTF-8"),
         Diag.handler ("Failed to parse input: ErrorGuaranteed(())")]) := by
    unfold create_config
    simp [hmi]
  have hrun : with_tyctxt host env margs callback =
      { outcome := Outcome.err ("Failed to create_config")
        callback_calls := 0
        expansion_ran := false
        global_ctxt_ran := false
        diags :=
          [Diag.early env.error_format
            ("couldn\x27t read from stdin, as it did not contain valid UTF-8"),
           Diag.handler ("Failed to parse input: ErrorGuaranteed(())")] } := by
    unfold with_tyctxt
    rw [hparse, hcc]
  exact ⟨hmi, by rw [hcc], by rw [hrun], by rw [hrun], by rw [hrun]⟩

/-- Witness for C7: the concrete `-` operand with a failing stdin read. -/
theorem stdin_invalid_utf8_fails_at_resolver_witness :
    make_input sampleEnv.error_format sampleEnv.stdin mDash.free =
      (Except.error (),
        [Diag.early sampleEnv.error_format
          ("couldn\x27t read from stdin, as it did not contain valid UTF-8")]) ∧
    (create_config sampleEnv mDash).1 = none ∧
    (with_tyctxt hostOk sampleEnv mDash zeroCallback).outcome
        = Outcome.err ("Failed to create_config") ∧
    (with_tyctxt hostOk sampleEnv mDash zeroCallback).expansion_ran = false ∧
    (with_tyctxt hostOk sampleEnv mDash zeroCallback).callback_calls = 0 :=
  stdin_invalid_utf8_fails_at_resolver hostOk sampleEnv mDash zeroCallback
    rfl rfl rfl

/-- C5 counterexample: for the unreadable-stdin configuration failure the
assembler emits two diagnostics (the fatal UTF-8 report from the resolver and
the follow-up "Failed to parse input" report), not exactly one. -/
theorem config_failure_diag_count_cex :
    (create_config sampleEnv mDash).1 = none ∧
    (create_config sampleEnv mDash).2.length = 2 := ⟨rfl, rfl⟩

/-- C5 amended: every configuration-time failure makes the assembler return
`None` and the top-level entry point return `Err(String)` with the callback
never invoked; the operand-count failures and the unknown-crate-type failure
emit exactly one diagnostic each, while the unreadable-stdin failure emits
two (the fatal UTF-8 diagnostic from the resolver plus the follow-up "Failed to
parse input" report). -/
theorem config_failure_amended {T : Type} (host : HostPipeline)
    (env : HostEnv) (margs : Matches) (callback : TyCtxt → T)
    (a b f e : String) (rest : List String)
    (hparse : host.arg_parse_error = none) :
    (margs.free = [] →
      create_config env margs =
        (none, [Diag.handler ("missing file operand")])) ∧
    (margs.free = a :: b :: rest →
      create_config env margs =
        (none, [Diag.handler ("too many file operands")])) ∧
    (margs.free = ["-"] → env.stdin = none →
      (create_config env margs).1 = none ∧
      (create_config env margs).2.length = 2) ∧
    (margs.free = [f] → f ≠ "-" → env.crate_types_result = Except.error e →
      create_config env margs =
        (none, [Diag.handler ("unknown crate type: " ++ e)])) ∧
    ((create_config env margs).1 = none →
      (with_tyctxt host env margs callback).outcome
          = Outcome.err ("Failed to create_config") ∧
      (with_tyctxt host env margs callback).callback_calls = 0) := by
  refine ⟨fun h0 => ?_, fun h2 => ?_, fun hd hs => ?_, fun hf hne hct => ?_,
    fun hnone => ?_⟩
  · have hmi : make_input env.error_format env.stdin margs.free =
        (Except.ok none, [Diag.handler ("missing file operand")]) := by
      rw [h0]
      rfl
    unfold create_config
    simp [hmi]
  · have hmi : make_input env.error_format env.stdin margs.free =
        (Except.ok none, [Diag.handler ("too many file operands")]) := by
      rw [h2]
      rfl
    unfold create_config
    simp [hmi]
  · have hmi : make_input env.error_format env.stdin margs.free =
        (Except.error (),
          [Diag.early env.error_format
            ("couldn\x27t read from stdin, as it did not contain valid UTF-8")]) := by
      rw [hd, hs]
      rfl
    have hcc : create_config env margs =
        (none,
          [Diag.early env.error_format
            ("couldn\x27t read from stdin, as it did not contain valid UTF-8"),
           Diag.handler ("Failed to parse input: ErrorGuaranteed(())")]) := by
      unfold create_config
      simp [hmi]
    rw [hcc]
    exact ⟨rfl, rfl⟩
  · have hmi : make_input env.error_format env.stdin margs.free =
        (Except.ok (some (Input.File f)), []) := by
      rw [hf]
      simp [make_input, hne]
    unfold create_config
    simp [hmi, hct]
  · rcases hcc : create_config env margs with ⟨o, l⟩
    rw [hcc] at hnone
    rcases o with _ | c
    · have hrun : with_tyctxt host env margs callback =
          { outcome := Outcome.err ("Failed to create_config")
            callback_calls := 0
            expansion_ran := false
            global_ctxt_ran := false
            diags := l } := by
        unfold with_tyctxt
        rw [hparse, hcc]
      rw [hrun]
      exact ⟨rfl, rfl⟩
    · exact absurd hnone (by simp)

/-- Witness for the amended C5 at the zero-operand invocation. -/
theorem config_failure_amended_witness :
    create_config sampleEnv mEmpty =
      (none, [Diag.handler ("missing file operand")]) :=
  (config_failure_amended hostOk sampleEnv mEmpty zeroCallback
    "a" "b" "f" "e" [] rfl).1 rfl

/-- C8: the assembler short-circuits on the first fatal sub-step without
accumulating further errors — when the input step fails, the result does not
depend on the later crate-type step at all, and when the crate-type step
fails after a resolved input, exactly its one diagnostic is appended — and
every successfully assembled options object disables test mode and the
documentation-tool flag. -/
theorem create_config_order_and_flags (env : HostEnv) (margs : Matches)
    (c : Config) (i : Input) (e : String) (log : List Diag) :
    ((create_config env margs).1 = some c →
      c.opts.test = false ∧ c.opts.actually_rustdoc = false) ∧
    ((∀ j, (make_input env.error_format env.stdin margs.free).1
        ≠ Except.ok (some j)) →
      ∀ r, create_config { env with crate_types_result := r } margs
            = create_config env margs) ∧
    (make_input env.error_format env.stdin margs.free
        = (Except.ok (some i), log) →
      env.crate_types_result = Except.error e →
      create_config env margs =
        (none, log ++ [Diag.handler ("unknown crate type: " ++ e)])) := by
  refine ⟨fun h => ?_, fun hni r => ?_, fun hmi hct => ?_⟩
  · rcases hcc : create_config env margs with ⟨o, l⟩
    rw [hcc] at h
    simp only at h
    subst h
    have hspec := create_config_some_spec env margs c l hcc
    exact ⟨hspec.2.1, hspec.2.2.1⟩
  · rcases hmi : make_input env.error_format env.stdin margs.free with ⟨mr, ml⟩
    rcases mr with u | o
    · unfold create_config
      simp [hmi]
    · rcases o with _ | j
      · unfold create_config
        simp [hmi]
      · exact absurd (by rw [hmi]) (hni j)
  · unfold create_config
    simp [hmi, hct]

/-- Witness for C8: the sample invocation has test mode and the
documentation-tool flag disabled. -/
theorem create_config_order_and_flags_witness :
    sampleConfig.opts.test = false ∧
    sampleConfig.opts.actually_rustdoc = false :=
  (create_config_order_and_flags sampleEnv sampleMatches sampleConfig
    (Input.File ("main.rs")) "e" []).1 rfl

/-- C10: whenever `with_tyctxt` returns the `Err` variant, the carried string
is the fixed "Failed to create_config", independent of which assembly step
failed and of the input; cause-specific text goes only to the diagnostics. -/
theorem err_msg_fixed {T : Type} (host : HostPipeline) (env : HostEnv)
    (margs : Matches) (callback : TyCtxt → T) (msg : String)
    (h : (with_tyctxt host env margs callback).outcome = Outcome.err msg) :
    msg = "Failed to create_config" := by
  unfold with_tyctxt at h
  rcases hp : host.arg_parse_error with _ | pe
  · rw [hp] at h
    rcases hcc : create_config env margs with ⟨o, l⟩
    rw [hcc] at h
    rcases o with _ | c
    · simp only [Outcome.err.injEq] at h
      exact h.symm
    · by_cases hdl : c.opts.describe_lints <;>
        by_cases hexp : host.expansion_ok <;>
        by_cases herr : host.has_errors_or_lint_errors <;>
        by_cases hgcx : host.global_ctxt_ok <;>
        simp [hdl, hexp, herr, hgcx] at h
  · rw [hp] at h
    simp at h

/-- Witness for C10: the zero-operand invocation returns exactly the fixed
string. -/
theorem err_msg_fixed_witness :
    (with_tyctxt hostOk sampleEnv mEmpty zeroCallback).outcome
        = Outcome.err ("Failed to create_config") ∧
    "Failed to create_config" = "Failed to create_config" :=
  ⟨rfl, err_msg_fixed hostOk sampleEnv mEmpty zeroCallback
    "Failed to create_config" rfl⟩

end RustcTools
